import Mathlib

/-!
Verification of the webhook delivery subsystem of `src/src/services/webhooks.py`
(classes `Webhook`, `WebhookManager`, `WebhookSender`).

The Python code is shallowly embedded:
* `Webhook` is the dataclass of the same name; the `WebhookType` str-enum
  becomes an inductive with its `value` string.
* JSON values are the inductive `JsonVal`; Python dicts become association
  lists with dict semantics (`assocLookup`, `assocSet`, `assocUpdate`).
* Network I/O and the standard-library JSON parser are environment inputs:
  `send_to_webhook` takes the HTTP outcome of the POST (`HttpOutcome`) and an
  oracle `parse` describing what `json.loads` + `dict.update` do on the
  webhook's `payload_template` string (`TemplateParse`).
* The manager's in-memory dict and its backing file are the two components of
  `ManagerState`; a save writes the `to_dict` image of the in-memory dict.
-/

/-- The `WebhookType(str, Enum)` of webhooks.py: SLACK/DISCORD/GENERIC. -/
inductive WebhookType
  | slack
  | discord
  | generic
deriving DecidableEq

/-- The `.value` string of each enum member. -/
def WebhookType.value : WebhookType → String
  | .slack => "slack"
  | .discord => "discord"
  | .generic => "generic"

/-- `WebhookType(s)`: enum lookup by value; `none` models the `ValueError`
raised on an unknown string. -/
def WebhookType.ofValue (s : String) : Option WebhookType :=
  if s = "slack" then some .slack
  else if s = "discord" then some .discord
  else if s = "generic" then some .generic
  else none

/-- The `Webhook` dataclass. `trigger_count` only ever grows by 1 from 0, so
`Nat` is faithful. Timestamps are the opaque ISO strings the code stores. -/
structure Webhook where
  id : String
  name : String
  type : WebhookType
  url : String
  enabled : Bool
  headers : List (String × String)
  payload_template : Option String
  created_at : String
  updated_at : String
  last_triggered_at : Option String
  trigger_count : Nat
deriving DecidableEq

/-- The dictionary form produced by `Webhook.to_dict` (and stored in the
backing JSON file): same fields, with `type` as its string value. -/
structure WebhookDict where
  id : String
  name : String
  type : String
  url : String
  enabled : Bool
  headers : List (String × String)
  payload_template : Option String
  created_at : String
  updated_at : String
  last_triggered_at : Option String
  trigger_count : Nat
deriving DecidableEq

/-- `Webhook.to_dict` (`dataclasses.asdict`); the str-enum member serializes
as its underlying string value. -/
def Webhook.to_dict (w : Webhook) : WebhookDict :=
  { id := w.id, name := w.name, type := w.type.value, url := w.url,
    enabled := w.enabled, headers := w.headers,
    payload_template := w.payload_template, created_at := w.created_at,
    updated_at := w.updated_at, last_triggered_at := w.last_triggered_at,
    trigger_count := w.trigger_count }

/-- `Webhook.from_dict`: converts the `type` string back through
`WebhookType(...)`; `none` models the `ValueError` on an unknown type. -/
def Webhook.from_dict (d : WebhookDict) : Option Webhook :=
  (WebhookType.ofValue d.type).map fun ty =>
    { id := d.id, name := d.name, type := ty, url := d.url,
      enabled := d.enabled, headers := d.headers,
      payload_template := d.payload_template, created_at := d.created_at,
      updated_at := d.updated_at, last_triggered_at := d.last_triggered_at,
      trigger_count := d.trigger_count }

/-- JSON values for the wire payloads. -/
inductive JsonVal
  | str (s : String)
  | num (n : Int)
  | boolean (b : Bool)
  | null
  | arr (xs : List JsonVal)
  | obj (fields : List (String × JsonVal))

/-- Python dict lookup on an association list (keys are unique in every dict
the code builds, so first match is the binding). -/
def assocLookup {α : Type} (d : List (String × α)) (k : String) : Option α :=
  (d.find? (fun p => p.1 = k)).map Prod.snd

/-- Python `d[k] = v`: replace in place if the key is present, else append. -/
def assocSet {α : Type} (d : List (String × α)) (k : String) (v : α) :
    List (String × α) :=
  if d.any (fun p => p.1 = k) then
    d.map (fun p => if p.1 = k then (k, v) else p)
  else d ++ [(k, v)]

/-- Python `d.update(t)`: set each binding of `t` into `d` in order. -/
def assocUpdate {α : Type} (d t : List (String × α)) : List (String × α) :=
  t.foldl (fun acc p => assocSet acc p.1 p.2) d

/-- `WebhookSender._build_slack_payload`: blocks with header, a section whose
mrkdwn text interpolates the title and `content[:500]`, and a button. -/
def buildSlackPayload (title content digest_id : String) :
    List (String × JsonVal) :=
  [("blocks", JsonVal.arr
    [JsonVal.obj [("type", JsonVal.str "header"),
       ("text", JsonVal.obj [("type", JsonVal.str "plain_text"),
         ("text", JsonVal.str "📰 New Digest")])],
     JsonVal.obj [("type", JsonVal.str "section"),
       ("text", JsonVal.obj [("type", JsonVal.str "mrkdwn"),
         ("text", JsonVal.str ("*" ++ title ++ "*\n" ++ content.take 500))])],
     JsonVal.obj [("type", JsonVal.str "actions"),
       ("elements", JsonVal.arr
         [JsonVal.obj [("type", JsonVal.str "button"),
            ("text", JsonVal.obj [("type", JsonVal.str "plain_text"),
              ("text", JsonVal.str "View Digest")]),
            ("url", JsonVal.str ("/digests/" ++ digest_id))]])]])]

/-- `WebhookSender._build_discord_payload`: one embed whose description is
`content[:500]`; `now` is `datetime.utcnow().isoformat()`. -/
def buildDiscordPayload (title content digest_id now : String) :
    List (String × JsonVal) :=
  [("embeds", JsonVal.arr
    [JsonVal.obj [("title", JsonVal.str ("📰 " ++ title)),
       ("description", JsonVal.str (content.take 500)),
       ("color", JsonVal.num 3447003),
       ("url", JsonVal.str ("/digests/" ++ digest_id)),
       ("footer", JsonVal.obj [("text", JsonVal.str "AI Digest")]),
       ("timestamp", JsonVal.str (now ++ "Z"))]])]

/-- `WebhookSender._build_generic_payload`: flat object, content unmodified. -/
def buildGenericPayload (title content digest_id now : String) :
    List (String × JsonVal) :=
  [("type", JsonVal.str "digest_notification"),
   ("digest_id", JsonVal.str digest_id),
   ("title", JsonVal.str title),
   ("content", JsonVal.str content),
   ("timestamp", JsonVal.str now)]

/-- Extracts `payload["blocks"][1]["text"]["text"]` — the section text of the
slack payload. -/
def slackSectionText (payload : List (String × JsonVal)) : Option String :=
  match assocLookup payload "blocks" with
  | some (JsonVal.arr blocks) =>
    match blocks.get? 1 with
    | some (JsonVal.obj sec) =>
      match assocLookup sec "text" with
      | some (JsonVal.obj t) =>
        match assocLookup t "text" with
        | some (JsonVal.str s) => some s
        | _ => none
      | _ => none
    | _ => none
  | _ => none

/-- Extracts `payload["embeds"][0]["description"]` of the discord payload. -/
def discordDescription (payload : List (String × JsonVal)) : Option String :=
  match assocLookup payload "embeds" with
  | some (JsonVal.arr embeds) =>
    match embeds.get? 0 with
    | some (JsonVal.obj e) =>
      match assocLookup e "description" with
      | some (JsonVal.str s) => some s
      | _ => none
    | _ => none
  | _ => none

/-- Extracts `payload["content"]` of the generic payload. -/
def genericContent (payload : List (String × JsonVal)) : Option String :=
  match assocLookup payload "content" with
  | some (JsonVal.str s) => some s
  | _ => none

/-- Outcome of the single HTTP POST in `send_to_webhook`: a response with a
status code, an `asyncio.TimeoutError`, or a transport-level exception. -/
inductive HttpOutcome
  | status (code : Nat)
  | timeout
  | transportError
deriving DecidableEq

/-- What `json.loads(payload_template)` followed by `payload.update(...)`
does on a given template string (an oracle for the stdlib parser):
* `objectVal fields`: `loads` succeeds and `dict.update` accepts the parsed
  value, applying these key/value bindings. A JSON object is the usual case,
  but any parsed value `dict.update` accepts lands here: an empty array or
  empty string contributes no bindings, an array of two-element pairs such
  as `[["a", 1]]` contributes those pairs;
* `updateIncompatible`: `loads` succeeds but `dict.update` raises on the
  parsed value (e.g. the JSON number `5` gives `TypeError`), an exception
  the outer `except Exception` handler turns into a failed send;
* `decodeError`: `loads` raises `json.JSONDecodeError`. -/
inductive TemplateParse
  | objectVal (fields : List (String × JsonVal))
  | updateIncompatible
  | decodeError

/-- Observable result of one `send_to_webhook` call: the returned boolean,
the (possibly updated) webhook record, how many HTTP POSTs were made, the
payload posted (if any), whether `_save_webhooks` ran, and whether the
invalid-template warning was logged. -/
structure SendResult where
  success : Bool
  webhook : Webhook
  httpCalls : Nat
  payloadSent : Option (List (String × JsonVal))
  saved : Bool
  warned : Bool

/-- The type dispatch of `send_to_webhook` (slack/discord branches, generic
in the `else`). -/
def builtPayload (now : String) (w : Webhook)
    (title content digest_id : String) : List (String × JsonVal) :=
  match w.type with
  | .slack => buildSlackPayload title content digest_id
  | .discord => buildDiscordPayload title content digest_id now
  | .generic => buildGenericPayload title content digest_id now

/-- The POST and its aftermath (lines 425–483): status in {200, 201, 204}
sets `last_triggered_at`, bumps `trigger_count`, saves, returns True; any
other status, timeout, or exception returns False and changes nothing. -/
def httpSend (now : String) (webhook : Webhook)
    (payload : List (String × JsonVal)) (warned : Bool)
    (outcome : HttpOutcome) : SendResult :=
  match outcome with
  | .status code =>
    if code = 200 ∨ code = 201 ∨ code = 204 then
      { success := true,
        webhook := { webhook with
          last_triggered_at := some now,
          trigger_count := webhook.trigger_count + 1 },
        httpCalls := 1, payloadSent := some payload, saved := true,
        warned := warned }
    else
      { success := false, webhook := webhook, httpCalls := 1,
        payloadSent := some payload, saved := false, warned := warned }
  | .timeout =>
      { success := false, webhook := webhook, httpCalls := 1,
        payloadSent := some payload, saved := false, warned := warned }
  | .transportError =>
      { success := false, webhook := webhook, httpCalls := 1,
        payloadSent := some payload, saved := false, warned := warned }

/-- `WebhookSender.send_to_webhook`. `parse` is the template oracle, `now`
the current UTC timestamp, `outcome` what the POST would yield. A disabled
webhook short-circuits to False. `if webhook.payload_template:` is Python
truthiness, so `None` and `""` both skip the template block. -/
def send_to_webhook (parse : String → TemplateParse) (now : String)
    (webhook : Webhook) (title content digest_id : String)
    (outcome : HttpOutcome) : SendResult :=
  if webhook.enabled = false then
    { success := false, webhook := webhook, httpCalls := 0,
      payloadSent := none, saved := false, warned := false }
  else
    let built := builtPayload now webhook title content digest_id
    match webhook.payload_template with
    | none => httpSend now webhook built false outcome
    | some s =>
      if s = "" then httpSend now webhook built false outcome
      else
        match parse s with
        | .objectVal fields =>
            httpSend now webhook (assocUpdate built fields) false outcome
        | .decodeError => httpSend now webhook built true outcome
        | .updateIncompatible =>
            { success := false, webhook := webhook, httpCalls := 0,
              payloadSent := none, saved := false, warned := false }

/-- `WebhookSender.send_to_all`: filter the enabled webhooks, return `{}` if
none, else gather the per-webhook sends and write `results[webhook.id] =
success` for each in order. `outcome` gives each webhook's POST outcome. -/
def send_to_all (parse : String → TemplateParse) (now : String)
    (webhooks : List Webhook) (title content digest_id : String)
    (outcome : Webhook → HttpOutcome) : List (String × Bool) :=
  let enabled := webhooks.filter (fun w => w.enabled)
  if enabled.isEmpty then []
  else
    enabled.foldl (fun results w =>
      assocSet results w.id
        (send_to_webhook parse now w title content digest_id
          (outcome w)).success) []

/-- `WebhookManager`'s state: the in-memory `self.webhooks` dict together
with the contents of the backing JSON file (a dict of `to_dict` forms). -/
structure ManagerState where
  webhooks : List (String × Webhook)
  stored : List (String × WebhookDict)

/-- `WebhookManager._save_webhooks`: rewrite the whole file with the
`to_dict` image of the in-memory dict. -/
def saveWebhooks (webhooks : List (String × Webhook)) :
    List (String × WebhookDict) :=
  webhooks.map (fun p => (p.1, p.2.to_dict))

/-- States the backing file can be in when `_load_webhooks` runs. -/
inductive FileState
  | absent
  | unreadable
  | invalidJson
  | valid (data : List (String × WebhookDict))

/-- Errors `_load_webhooks` can let escape. -/
inductive LoadError
  | osError
  | jsonDecodeError
  | valueError
deriving DecidableEq

/-- `WebhookManager._load_webhooks`: only `FileNotFoundError` is caught
(yielding the empty registry); an unreadable file (`OSError`), invalid JSON
(`json.JSONDecodeError`) and a record whose `type` string is unknown
(`ValueError` from `WebhookType(...)`) all propagate. -/
def load_webhooks : FileState → Except LoadError (List (String × Webhook))
  | .absent => .ok []
  | .unreadable => .error .osError
  | .invalidJson => .error .jsonDecodeError
  | .valid data =>
    match data.mapM (fun p => (Webhook.from_dict p.2).map fun w => (p.1, w)) with
    | some ws => .ok ws
    | none => .error .valueError

/-- `WebhookManager.create_webhook`. On a duplicate id it raises
`ValueError` before touching anything, so the state is returned unchanged;
on a fresh id it inserts the new record and saves. `now` stands for the
dataclass's `datetime.utcnow().isoformat()` defaults. -/
def create_webhook (st : ManagerState) (webhook_id name : String)
    (ty : WebhookType) (url : String)
    (headers : Option (List (String × String)))
    (payload_template : Option String) (now : String) :
    ManagerState × Except String Webhook :=
  if st.webhooks.any (fun p => p.1 = webhook_id) then
    (st, .error ("Webhook " ++ webhook_id ++ " already exists"))
  else
    let webhook : Webhook :=
      { id := webhook_id, name := name, type := ty, url := url,
        enabled := true, headers := headers.getD [],
        payload_template := payload_template, created_at := now,
        updated_at := now, last_triggered_at := none, trigger_count := 0 }
    let webhooks := st.webhooks ++ [(webhook_id, webhook)]
    ({ webhooks := webhooks, stored := saveWebhooks webhooks }, .ok webhook)

/-- `WebhookManager.update_webhook`: only non-None fields change (`type` is
not among the parameters), `updated_at` refreshes, then a save. A missing id
raises `ValueError`, leaving the state unchanged. -/
def update_webhook (st : ManagerState) (webhook_id : String)
    (name url : Option String) (enabled : Option Bool)
    (headers : Option (List (String × String)))
    (payload_template : Option String) (now : String) :
    ManagerState × Except String Webhook :=
  match assocLookup st.webhooks webhook_id with
  | none => (st, .error ("Webhook " ++ webhook_id ++ " not found"))
  | some webhook =>
    let webhook :=
      { webhook with
        name := name.getD webhook.name,
        url := url.getD webhook.url,
        enabled := enabled.getD webhook.enabled,
        headers := headers.getD webhook.headers,
        payload_template :=
          match payload_template with
          | some t => some t
          | none => webhook.payload_template,
        updated_at := now }
    let webhooks := assocSet st.webhooks webhook_id webhook
    ({ webhooks := webhooks, stored := saveWebhooks webhooks }, .ok webhook)

/-- `WebhookManager.toggle_webhook`: flip `enabled`, refresh `updated_at`,
save. A missing id raises `ValueError`, leaving the state unchanged. -/
def toggle_webhook (st : ManagerState) (webhook_id now : String) :
    ManagerState × Except String Webhook :=
  match assocLookup st.webhooks webhook_id with
  | none => (st, .error ("Webhook " ++ webhook_id ++ " not found"))
  | some webhook =>
    let webhook :=
      { webhook with enabled := !webhook.enabled, updated_at := now }
    let webhooks := assocSet st.webhooks webhook_id webhook
    ({ webhooks := webhooks, stored := saveWebhooks webhooks }, .ok webhook)

/-- The dispatcher's success bookkeeping (lines 432–434): on a 2xx-success
response it sets `last_triggered_at`, bumps `trigger_count` on the record it
holds, and saves through the manager. Expressed on the manager state, keyed
by the record's id; absent id is a no-op (the dispatcher only holds records
obtained from the registry). -/
def recordSendSuccess (st : ManagerState) (webhook_id now : String) :
    ManagerState :=
  match assocLookup st.webhooks webhook_id with
  | none => st
  | some webhook =>
    let webhook :=
      { webhook with
        last_triggered_at := some now,
        trigger_count := webhook.trigger_count + 1 }
    let webhooks := assocSet st.webhooks webhook_id webhook
    { webhooks := webhooks, stored := saveWebhooks webhooks }

/-- A registry-mutating operation other than create/delete: the three
operations that touch an existing record. -/
inductive RegOp
  | update (webhook_id : String) (name url : Option String)
      (enabled : Option Bool) (headers : Option (List (String × String)))
      (payload_template : Option String) (now : String)
  | toggle (webhook_id now : String)
  | sendSuccess (webhook_id now : String)

/-- Apply one operation to the manager state (discarding return values). -/
def applyOp (st : ManagerState) : RegOp → ManagerState
  | .update id name url enabled headers tmpl now =>
      (update_webhook st id name url enabled headers tmpl now).1
  | .toggle id now => (toggle_webhook st id now).1
  | .sendSuccess id now => recordSendSuccess st id now

/-- Apply a sequence of operations left to right. -/
def applyOps (st : ManagerState) (ops : List RegOp) : ManagerState :=
  ops.foldl applyOp st

/-- A concrete enabled generic webhook for evaluating the theorems. -/
def sampleWebhook : Webhook :=
  { id := "w1", name := "Primary", type := .generic,
    url := "https://example.test/hook", enabled := true, headers := [],
    payload_template := none, created_at := "2026-01-01T00:00:00",
    updated_at := "2026-01-01T00:00:00", last_triggered_at := none,
    trigger_count := 0 }

/-- The sample webhook, disabled. -/
def disabledWebhook : Webhook :=
  { sampleWebhook with id := "w2", enabled := false }

/-- The sample webhook with `payload_template = ""` (falsy but not None). -/
def emptyTemplateWebhook : Webhook :=
  { sampleWebhook with id := "w3", payload_template := some "" }

/-- The sample webhook whose template is the JSON text `5`: `json.loads`
succeeds (a number), after which `payload.update(5)` raises `TypeError`. -/
def numberTemplateWebhook : Webhook :=
  { sampleWebhook with id := "w4", payload_template := some "5" }

/-- The sample webhook with an object template. -/
def objectTemplateWebhook : Webhook :=
  { sampleWebhook with
    id := "w5",
    payload_template := some "\x7b\"source\": \"digest\"\x7d" }

/-- Template oracle matching the sample templates above: the empty string is
not valid JSON, `5` parses but breaks `dict.update`, the object template
parses to one binding, anything else is a decode error. -/
def sampleParse : String → TemplateParse := fun s =>
  if s = "\x7b\"source\": \"digest\"\x7d" then
    .objectVal [("source", JsonVal.str "digest")]
  else if s = "5" then .updateIncompatible
  else .decodeError

/-- A concrete two-webhook registry state for evaluating the theorems. -/
def sampleState : ManagerState :=
  { webhooks := [("w1", sampleWebhook), ("w2", disabledWebhook)],
    stored := saveWebhooks [("w1", sampleWebhook), ("w2", disabledWebhook)] }

theorem assocLookup_cons {α : Type} (a : String × α) (d : List (String × α))
    (k : String) :
    assocLookup (a :: d) k = if a.1 = k then some a.2 else assocLookup d k := by
  by_cases h : a.1 = k <;> simp [assocLookup, List.find?_cons, h]

theorem assocLookup_eq_none {α : Type} (d : List (String × α)) (k : String)
    (h : d.any (fun p => p.1 = k) = false) : assocLookup d k = none := by
  induction d with
  | nil => rfl
  | cons a d ih =>
    simp only [List.any_cons, Bool.or_eq_false_iff] at h
    have ha : ¬ a.1 = k := by simpa using h.1
    simp [assocLookup_cons, ha, ih h.2]

theorem assocLookup_append {α : Type} (d e : List (String × α)) (k : String) :
    assocLookup (d ++ e) k
      = ((assocLookup d k).orElse fun _ => assocLookup e k) := by
  induction d with
  | nil => simp [assocLookup]
  | cons a d ih =>
    by_cases h : a.1 = k <;>
      simp [List.cons_append, assocLookup_cons, h, ih, Option.orElse]

theorem assocLookup_map_replace_of_mem {α : Type} (d : List (String × α))
    (k : String) (v : α) (h : d.any (fun p => p.1 = k) = true) :
    assocLookup (d.map (fun p => if p.1 = k then (k, v) else p)) k
      = some v := by
  induction d with
  | nil => simp at h
  | cons a d ih =>
    by_cases ha : a.1 = k
    · simp [List.map_cons, ha, assocLookup_cons]
    · have h' : d.any (fun p => p.1 = k) = true := by
        simp only [List.any_cons, Bool.or_eq_true] at h
        rcases h with h | h
        · exact absurd (by simpa using h) ha
        · exact h
      simp [List.map_cons, ha, assocLookup_cons, ih h']

theorem assocLookup_map_replace_ne {α : Type} (d : List (String × α))
    (k : String) (v : α) (k' : String) (hk : ¬ k' = k) :
    assocLookup (d.map (fun p => if p.1 = k then (k, v) else p)) k'
      = assocLookup d k' := by
  induction d with
  | nil => rfl
  | cons a d ih =>
    by_cases ha : a.1 = k
    · have hk' : ¬ k = k' := fun he => hk he.symm
      have ha' : ¬ a.1 = k' := by rw [ha]; exact hk'
      simp [List.map_cons, ha, assocLookup_cons, hk', ha', ih]
    · by_cases ha2 : a.1 = k' <;>
        simp [List.map_cons, ha, assocLookup_cons, ha2, ih, hk]

/-- Python dict-write semantics of `assocSet`: the written key maps to the
new value, every other key is untouched. -/
theorem assocLookup_assocSet {α : Type} (d : List (String × α)) (k : String)
    (v : α) (k' : String) :
    assocLookup (assocSet d k v) k'
      = if k' = k then some v else assocLookup d k' := by
  unfold assocSet
  by_cases h : d.any (fun p => p.1 = k) = true
  · by_cases hk : k' = k
    · subst hk
      simp [h, assocLookup_map_replace_of_mem d k' v]
    · simp [h, hk, assocLookup_map_replace_ne d k v k' hk]
  · have hfalse : d.any (fun p => p.1 = k) = false := by
      cases hb : d.any (fun p => p.1 = k) with
      | true => exact absurd hb h
      | false => rfl
    by_cases hk : k' = k
    · subst hk
      simp [hfalse, assocLookup_append, assocLookup_eq_none d k' hfalse,
        assocLookup_cons, Option.orElse]
    · have hk' : ¬ k = k' := fun he => hk he.symm
      simp only [hfalse, Bool.false_eq_true, if_false, if_neg hk,
        assocLookup_append, assocLookup_cons, if_neg hk']
      cases assocLookup d k' <;> simp [assocLookup, Option.orElse]

/-- Python dict-merge semantics of `assocUpdate`: for a template with
distinct keys (as `json.loads` guarantees), a merged key resolves to the
template's value when the template binds it, else to the base dict's. -/
theorem assocLookup_assocUpdate {α : Type} (d t : List (String × α))
    (ht : (t.map Prod.fst).Nodup) (k : String) :
    assocLookup (assocUpdate d t) k
      = ((assocLookup t k).orElse fun _ => assocLookup d k) := by
  induction t generalizing d with
  | nil => rfl
  | cons p t ih =>
    rw [List.map_cons] at ht
    obtain ⟨hmem, hnd⟩ := List.nodup_cons.mp ht
    have step : assocUpdate d (p :: t) = assocUpdate (assocSet d p.1 p.2) t := by
      simp [assocUpdate, List.foldl_cons]
    rw [step, ih _ hnd]
    by_cases hk : k = p.1
    · subst hk
      have hnone : assocLookup t p.1 = none := by
        apply assocLookup_eq_none
        rw [List.any_eq_false]
        intro q hq
        simp only [decide_eq_true_eq]
        intro hq1
        exact hmem (hq1 ▸ List.mem_map_of_mem Prod.fst hq)
      rw [hnone]
      simp [assocLookup_cons, assocLookup_assocSet, Option.orElse]
    · have hk' : ¬ p.1 = k := fun he => hk he.symm
      simp [assocLookup_cons, assocLookup_assocSet, hk, hk', Option.orElse]

/-- Folding dict-writes of pairwise-fresh keys over an accumulator appends
them in order (how `send_to_all` builds its results dict). -/
theorem foldl_assocSet_fresh (g : Webhook → Bool) (ws : List Webhook) :
    ∀ acc : List (String × Bool),
      (ws.map Webhook.id).Nodup →
      (∀ w ∈ ws, acc.any (fun p => p.1 = w.id) = false) →
      ws.foldl (fun r w => assocSet r w.id (g w)) acc
        = acc ++ ws.map (fun w => (w.id, g w)) := by
  induction ws with
  | nil => intro acc _ _; simp
  | cons w ws ih =>
    intro acc hnd hfresh
    rw [List.map_cons] at hnd
    obtain ⟨hmem, hnd'⟩ := List.nodup_cons.mp hnd
    have hw : acc.any (fun p => p.1 = w.id) = false :=
      hfresh w (List.mem_cons_self w ws)
    have hset : assocSet acc w.id (g w) = acc ++ [(w.id, g w)] := by
      unfold assocSet
      rw [hw]
      simp
    rw [List.foldl_cons, hset, ih _ hnd']
    · simp
    · intro w' hw'
      have h1 : acc.any (fun p => p.1 = w'.id) = false :=
        hfresh w' (List.mem_cons_of_mem _ hw')
      have h2 : ¬ w.id = w'.id := by
        intro he
        have : w.id ∈ ws.map Webhook.id := by
          rw [he]
          exact List.mem_map_of_mem _ hw'
        exact hmem this
      rw [List.any_append]
      simp [h1, h2]

/-- Round trip of the type enum through its string value. -/
theorem ofValue_value (t : WebhookType) :
    WebhookType.ofValue t.value = some t := by
  cases t <;> rfl

theorem httpSend_payloadSent (now : String) (webhook : Webhook)
    (payload : List (String × JsonVal)) (warned : Bool)
    (outcome : HttpOutcome) :
    (httpSend now webhook payload warned outcome).payloadSent
      = some payload := by
  cases outcome with
  | status code =>
    by_cases h : code = 200 ∨ code = 201 ∨ code = 204 <;> simp [httpSend, h]
  | timeout => rfl
  | transportError => rfl

theorem httpSend_warned (now : String) (webhook : Webhook)
    (payload : List (String × JsonVal)) (warned : Bool)
    (outcome : HttpOutcome) :
    (httpSend now webhook payload warned outcome).warned = warned := by
  cases outcome with
  | status code =>
    by_cases h : code = 200 ∨ code = 201 ∨ code = 204 <;> simp [httpSend, h]
  | timeout => rfl
  | transportError => rfl

theorem httpSend_httpCalls (now : String) (webhook : Webhook)
    (payload : List (String × JsonVal)) (warned : Bool)
    (outcome : HttpOutcome) :
    (httpSend now webhook payload warned outcome).httpCalls = 1 := by
  cases outcome with
  | status code =>
    by_cases h : code = 200 ∨ code = 201 ∨ code = 204 <;> simp [httpSend, h]
  | timeout => rfl
  | transportError => rfl

theorem httpSend_success_iff (now : String) (webhook : Webhook)
    (payload : List (String × JsonVal)) (warned : Bool)
    (outcome : HttpOutcome) :
    (httpSend now webhook payload warned outcome).success = true
      ↔ outcome = HttpOutcome.status 200 ∨ outcome = HttpOutcome.status 201
        ∨ outcome = HttpOutcome.status 204 := by
  cases outcome with
  | status code =>
    by_cases h : code = 200 ∨ code = 201 ∨ code = 204 <;>
      simp [httpSend, h]
  | timeout => simp [httpSend]
  | transportError => simp [httpSend]

theorem httpSend_webhook_of_success (now : String) (webhook : Webhook)
    (payload : List (String × JsonVal)) (warned : Bool)
    (outcome : HttpOutcome)
    (h : (httpSend now webhook payload warned outcome).success = true) :
    (httpSend now webhook payload warned outcome).webhook
      = { webhook with
          last_triggered_at := some now,
          trigger_count := webhook.trigger_count + 1 } := by
  cases outcome with
  | status code =>
    by_cases hc : code = 200 ∨ code = 201 ∨ code = 204
    · simp [httpSend, hc]
    · simp [httpSend, hc] at h
  | timeout => simp [httpSend] at h
  | transportError => simp [httpSend] at h

theorem httpSend_webhook_of_failure (now : String) (webhook : Webhook)
    (payload : List (String × JsonVal)) (warned : Bool)
    (outcome : HttpOutcome)
    (h : (httpSend now webhook payload warned outcome).success = false) :
    (httpSend now webhook payload warned outcome).webhook = webhook := by
  cases outcome with
  | status code =>
    by_cases hc : code = 200 ∨ code = 201 ∨ code = 204
    · simp [httpSend, hc] at h
    · simp [httpSend, hc]
  | timeout => rfl
  | transportError => rfl

/-- An enabled webhook whose call made an HTTP POST went through `httpSend`
on some payload (the template path either passes a payload through or makes
zero HTTP calls). -/
theorem send_to_webhook_eq_httpSend (parse : String → TemplateParse)
    (now : String) (w : Webhook) (title content digest_id : String)
    (outcome : HttpOutcome) (henabled : w.enabled = true)
    (hhttp : (send_to_webhook parse now w title content digest_id
        outcome).httpCalls = 1) :
    ∃ payload warned,
      send_to_webhook parse now w title content digest_id outcome
        = httpSend now w payload warned outcome := by
  cases hpt : w.payload_template with
  | none =>
    refine ⟨builtPayload now w title content digest_id, false, ?_⟩
    unfold send_to_webhook
    rw [hpt]
    simp [henabled]
  | some s =>
    by_cases hs : s = ""
    · refine ⟨builtPayload now w title content digest_id, false, ?_⟩
      unfold send_to_webhook
      rw [hpt]
      simp [henabled, hs]
    · cases hp : parse s with
      | objectVal fields =>
        refine ⟨assocUpdate (builtPayload now w title content digest_id)
          fields, false, ?_⟩
        unfold send_to_webhook
        rw [hpt]
        simp [henabled, hs, hp]
      | decodeError =>
        refine ⟨builtPayload now w title content digest_id, true, ?_⟩
        unfold send_to_webhook
        rw [hpt]
        simp [henabled, hs, hp]
      | updateIncompatible =>
        exfalso
        have heq : send_to_webhook parse now w title content digest_id outcome
            = { success := false, webhook := w, httpCalls := 0,
                payloadSent := none, saved := false, warned := false } := by
          unfold send_to_webhook
          rw [hpt]
          simp [henabled, hs, hp]
        rw [heq] at hhttp
        simp at hhttp

/-- C3: for every title, content and digest id, the slack-style payload's
section text embeds exactly the first 500 characters of the content after
the bolded title line (an exact `content[:500]` cut, no ellipsis), the
chat-embed-style description is exactly the first 500 characters, and the
generic payload carries the content unmodified regardless of length. -/
theorem payload_truncation (title content digest_id now : String) :
    slackSectionText (buildSlackPayload title content digest_id)
      = some ("*" ++ title ++ "*\n" ++ content.take 500)
    ∧ discordDescription (buildDiscordPayload title content digest_id now)
      = some (content.take 500)
    ∧ genericContent (buildGenericPayload title content digest_id now)
      = some content := by
  refine ⟨rfl, rfl, rfl⟩

/-- C5 counterexample: the claim says a file that exists but is unreadable
or holds invalid content loads as the empty registry; in the code only
`FileNotFoundError` is caught, so both cases raise instead. -/
theorem load_graceful_counterexample :
    load_webhooks FileState.invalidJson = Except.error LoadError.jsonDecodeError
    ∧ load_webhooks FileState.invalidJson
        ≠ (Except.ok [] : Except LoadError (List (String × Webhook)))
    ∧ load_webhooks FileState.unreadable = Except.error LoadError.osError := by
  refine ⟨rfl, ?_, rfl⟩
  intro h
  exact Except.noConfusion h

/-- C5 amended: loading from an absent backing file yields the empty
registry (the `FileNotFoundError` handler); a file that exists but is
unreadable, or whose content is invalid, raises an error instead of
degrading to an empty registry. -/
theorem load_webhooks_amended :
    load_webhooks FileState.absent
        = (Except.ok [] : Except LoadError (List (String × Webhook)))
    ∧ load_webhooks FileState.unreadable = Except.error LoadError.osError
    ∧ load_webhooks FileState.invalidJson
        = Except.error LoadError.jsonDecodeError :=
  ⟨rfl, rfl, rfl⟩

/-- C6: `send_to_webhook` on a disabled webhook returns false with zero
HTTP calls made, no payload built or sent, no save, and the record
untouched. -/
theorem disabled_send_noop (parse : String → TemplateParse) (now : String)
    (w : Webhook) (title content digest_id : String) (outcome : HttpOutcome)
    (h : w.enabled = false) :
    send_to_webhook parse now w title content digest_id outcome
      = { success := false, webhook := w, httpCalls := 0, payloadSent := none,
          saved := false, warned := false } := by
  unfold send_to_webhook
  simp [h]

/-- C6 witness at the concrete disabled webhook. -/
theorem disabled_send_noop_witness :
    send_to_webhook (fun _ => TemplateParse.decodeError) "2026-01-02T00:00:00"
      disabledWebhook "Daily" "Hello" "d-123" (HttpOutcome.status 200)
      = { success := false, webhook := disabledWebhook, httpCalls := 0,
          payloadSent := none, saved := false, warned := false } :=
  disabled_send_noop _ _ disabledWebhook _ _ _ _ rfl

/-- C10: `from_dict` after `to_dict` is the identity on every record: the
`type` member is stored as its string value and restored to the same member,
and all other fields survive unchanged, so a saved-and-reloaded registry
holds exactly the same records. -/
theorem webhook_dict_roundtrip (w : Webhook) :
    Webhook.from_dict (Webhook.to_dict w) = some w := by
  unfold Webhook.to_dict Webhook.from_dict
  simp [ofValue_value]

/-- C2: for an enabled webhook whose call reached the HTTP POST, the call
returns true exactly when the response status is 200, 201 or 204; then the
record's `trigger_count` is incremented by exactly 1 and `last_triggered_at`
set to the current UTC time. On any other status, a timeout, or a transport
exception it returns false and the record is unchanged. -/
theorem sendToWebhook_outcome_contract (parse : String → TemplateParse)
    (now : String) (w : Webhook) (title content digest_id : String)
    (outcome : HttpOutcome) (henabled : w.enabled = true)
    (hhttp : (send_to_webhook parse now w title content digest_id
        outcome).httpCalls = 1) :
    ((send_to_webhook parse now w title content digest_id outcome).success
        = true
      ↔ outcome = HttpOutcome.status 200 ∨ outcome = HttpOutcome.status 201
        ∨ outcome = HttpOutcome.status 204)
    ∧ ((send_to_webhook parse now w title content digest_id outcome).success
        = true →
      (send_to_webhook parse now w title content digest_id outcome).webhook
        = { w with
            last_triggered_at := some now,
            trigger_count := w.trigger_count + 1 })
    ∧ ((send_to_webhook parse now w title content digest_id outcome).success
        = false →
      (send_to_webhook parse now w title content digest_id outcome).webhook
        = w) := by
  obtain ⟨payload, warned, heq⟩ := send_to_webhook_eq_httpSend parse now w
    title content digest_id outcome henabled hhttp
  rw [heq]
  exact ⟨httpSend_success_iff now w payload warned outcome,
    httpSend_webhook_of_success now w payload warned outcome,
    httpSend_webhook_of_failure now w payload warned outcome⟩

/-- C2 witness: a 200 response on the concrete enabled webhook bumps the
counter to 1 and stamps the trigger time. -/
theorem sendToWebhook_outcome_contract_witness :
    (send_to_webhook (fun _ => TemplateParse.decodeError) "2026-01-02T00:00:00"
        sampleWebhook "Daily" "Hello" "d-123"
        (HttpOutcome.status 200)).webhook
      = { sampleWebhook with
          last_triggered_at := some "2026-01-02T00:00:00",
          trigger_count := sampleWebhook.trigger_count + 1 } :=
  (sendToWebhook_outcome_contract (fun _ => TemplateParse.decodeError)
    "2026-01-02T00:00:00" sampleWebhook "Daily" "Hello" "d-123"
    (HttpOutcome.status 200) rfl rfl).2.1 rfl

theorem send_eq_of_template_object (parse : String → TemplateParse)
    (now : String) (w : Webhook) (title content digest_id s : String)
    (fields : List (String × JsonVal)) (outcome : HttpOutcome)
    (henabled : w.enabled = true) (htmpl : w.payload_template = some s)
    (hs : ¬ s = "") (hp : parse s = TemplateParse.objectVal fields) :
    send_to_webhook parse now w title content digest_id outcome
      = httpSend now w
          (assocUpdate (builtPayload now w title content digest_id) fields)
          false outcome := by
  unfold send_to_webhook
  rw [htmpl]
  simp [henabled, hs, hp]

theorem send_eq_of_template_decodeError (parse : String → TemplateParse)
    (now : String) (w : Webhook) (title content digest_id s : String)
    (outcome : HttpOutcome)
    (henabled : w.enabled = true) (htmpl : w.payload_template = some s)
    (hs : ¬ s = "") (hp : parse s = TemplateParse.decodeError) :
    send_to_webhook parse now w title content digest_id outcome
      = httpSend now w (builtPayload now w title content digest_id) true
          outcome := by
  unfold send_to_webhook
  rw [htmpl]
  simp [henabled, hs, hp]

theorem send_eq_of_template_empty (parse : String → TemplateParse)
    (now : String) (w : Webhook) (title content digest_id : String)
    (outcome : HttpOutcome)
    (henabled : w.enabled = true) (htmpl : w.payload_template = some "") :
    send_to_webhook parse now w title content digest_id outcome
      = httpSend now w (builtPayload now w title content digest_id) false
          outcome := by
  unfold send_to_webhook
  rw [htmpl]
  simp [henabled]

theorem send_eq_of_template_updateIncompatible (parse : String → TemplateParse)
    (now : String) (w : Webhook) (title content digest_id s : String)
    (outcome : HttpOutcome)
    (henabled : w.enabled = true) (htmpl : w.payload_template = some s)
    (hs : ¬ s = "") (hp : parse s = TemplateParse.updateIncompatible) :
    send_to_webhook parse now w title content digest_id outcome
      = { success := false, webhook := w, httpCalls := 0, payloadSent := none,
          saved := false, warned := false } := by
  unfold send_to_webhook
  rw [htmpl]
  simp [henabled, hs, hp]

/-- C4 counterexample: the claim fails as stated on two concrete templates.
With `payload_template = ""` (non-null, and not valid JSON) the code's
truthiness check skips the template block entirely, so no warning is logged
even though parsing would fail (`warned = false`, delivery proceeds). With
`payload_template = "5"` the template does parse as JSON, yet delivery is
prevented: `payload.update(5)` raises `TypeError`, the outer handler turns
the send into a failure, and no HTTP call is made. -/
theorem template_claim_counterexample :
    ((send_to_webhook sampleParse "2026-01-02T00:00:00" emptyTemplateWebhook
        "Daily" "Hello" "d-123" (HttpOutcome.status 200)).warned = false
      ∧ (send_to_webhook sampleParse "2026-01-02T00:00:00"
          emptyTemplateWebhook "Daily" "Hello" "d-123"
          (HttpOutcome.status 200)).success = true)
    ∧ ((send_to_webhook sampleParse "2026-01-02T00:00:00"
          numberTemplateWebhook "Daily" "Hello" "d-123"
          (HttpOutcome.status 200)).success = false
      ∧ (send_to_webhook sampleParse "2026-01-02T00:00:00"
          numberTemplateWebhook "Daily" "Hello" "d-123"
          (HttpOutcome.status 200)).httpCalls = 0) :=
  ⟨⟨rfl, rfl⟩, rfl, rfl⟩

/-- C4 amended: for an enabled webhook with `payload_template = some s`:
if `s` is non-empty and parses to a value whose key/value bindings
`dict.update` accepts (a JSON object in the usual case), those top-level
bindings are shallow-merged over the built type-specific payload, template
keys winning on conflict, and delivery proceeds; if `s` is non-empty and
JSON parsing fails, a warning is logged and the unmodified built payload is
sent, with no error raised to the caller; if `s` is the empty string the
template block is skipped silently (built payload sent, no warning); if `s`
parses as JSON but `dict.update` raises on the parsed value (e.g. the JSON
number `5`), the send returns false without an HTTP call (the exception is
swallowed by the outer handler). -/
theorem template_merge_amended (parse : String → TemplateParse) (now : String)
    (w : Webhook) (title content digest_id s : String) (outcome : HttpOutcome)
    (henabled : w.enabled = true) (htmpl : w.payload_template = some s) :
    (∀ fields, ¬ s = "" → parse s = TemplateParse.objectVal fields →
      (send_to_webhook parse now w title content digest_id outcome).payloadSent
        = some (assocUpdate (builtPayload now w title content digest_id)
            fields)
      ∧ ∀ k, (fields.map Prod.fst).Nodup →
          assocLookup
            (assocUpdate (builtPayload now w title content digest_id) fields) k
            = ((assocLookup fields k).orElse fun _ =>
                assocLookup (builtPayload now w title content digest_id) k))
    ∧ (¬ s = "" → parse s = TemplateParse.decodeError →
      (send_to_webhook parse now w title content digest_id outcome).payloadSent
        = some (builtPayload now w title content digest_id)
      ∧ (send_to_webhook parse now w title content digest_id outcome).warned
        = true)
    ∧ (s = "" →
      (send_to_webhook parse now w title content digest_id outcome).payloadSent
        = some (builtPayload now w title content digest_id)
      ∧ (send_to_webhook parse now w title content digest_id outcome).warned
        = false)
    ∧ (¬ s = "" → parse s = TemplateParse.updateIncompatible →
      (send_to_webhook parse now w title content digest_id outcome).success
        = false
      ∧ (send_to_webhook parse now w title content digest_id
          outcome).httpCalls = 0) := by
  refine ⟨?_, ?_, ?_, ?_⟩
  · intro fields hs hp
    rw [send_eq_of_template_object parse now w title content digest_id s
      fields outcome henabled htmpl hs hp]
    exact ⟨httpSend_payloadSent _ _ _ _ _,
      fun k hnd => assocLookup_assocUpdate _ fields hnd k⟩
  · intro hs hp
    rw [send_eq_of_template_decodeError parse now w title content digest_id s
      outcome henabled htmpl hs hp]
    exact ⟨httpSend_payloadSent _ _ _ _ _, httpSend_warned _ _ _ _ _⟩
  · intro hs
    subst hs
    rw [send_eq_of_template_empty parse now w title content digest_id outcome
      henabled htmpl]
    exact ⟨httpSend_payloadSent _ _ _ _ _, httpSend_warned _ _ _ _ _⟩
  · intro hs hp
    rw [send_eq_of_template_updateIncompatible parse now w title content
      digest_id s outcome henabled htmpl hs hp]
    exact ⟨rfl, rfl⟩

/-- C4 amended witness: the concrete object template merges its key over the
built generic payload. -/
theorem template_merge_amended_witness :
    (send_to_webhook sampleParse "2026-01-02T00:00:00" objectTemplateWebhook
        "Daily" "Hello" "d-123" (HttpOutcome.status 200)).payloadSent
      = some (assocUpdate (builtPayload "2026-01-02T00:00:00"
          objectTemplateWebhook "Daily" "Hello" "d-123")
          [("source", JsonVal.str "digest")]) :=
  ((template_merge_amended sampleParse "2026-01-02T00:00:00"
    objectTemplateWebhook "Daily" "Hello" "d-123"
    "\x7b\"source\": \"digest\"\x7d" (HttpOutcome.status 200) rfl rfl).1
    [("source", JsonVal.str "digest")] (by decide) rfl).1

/-- C1: `send_to_all` returns the empty mapping when no webhook in the
registry snapshot is enabled, and otherwise a mapping with exactly one
boolean entry per webhook that was enabled in the snapshot, keyed by that
webhook's id in snapshot order, and no other entries. The distinct-ids
hypothesis is what the manager's id-keyed dict guarantees for its values. -/
theorem sendToAll_result_keys (parse : String → TemplateParse) (now : String)
    (webhooks : List Webhook) (title content digest_id : String)
    (outcome : Webhook → HttpOutcome)
    (h : ((webhooks.filter fun w => w.enabled).map Webhook.id).Nodup) :
    (webhooks.filter (fun w => w.enabled) = [] →
      send_to_all parse now webhooks title content digest_id outcome = [])
    ∧ send_to_all parse now webhooks title content digest_id outcome
        = (webhooks.filter fun w => w.enabled).map (fun w =>
            (w.id, (send_to_webhook parse now w title content digest_id
              (outcome w)).success)) := by
  constructor
  · intro he
    unfold send_to_all
    simp [he]
  · unfold send_to_all
    by_cases he : (webhooks.filter fun w => w.enabled).isEmpty
    · rw [List.isEmpty_iff] at he
      simp [he]
    · have he' : (webhooks.filter fun w => w.enabled).isEmpty = false := by
        cases hb : (webhooks.filter fun w => w.enabled).isEmpty
        · rfl
        · exact absurd hb he
      simp only [he', Bool.false_eq_true, if_false]
      rw [foldl_assocSet_fresh
        (fun w => (send_to_webhook parse now w title content digest_id
          (outcome w)).success)
        (webhooks.filter fun w => w.enabled) [] h (fun w _ => rfl)]
      simp

/-- C1 witness: on the concrete two-webhook registry (one enabled, one
disabled) the result holds exactly the enabled webhook's id. -/
theorem sendToAll_result_keys_witness :
    send_to_all (fun _ => TemplateParse.decodeError) "2026-01-02T00:00:00"
      [sampleWebhook, disabledWebhook] "Daily" "Hello" "d-123"
      (fun _ => HttpOutcome.status 200)
      = [("w1", true)] := by
  rw [(sendToAll_result_keys (fun _ => TemplateParse.decodeError)
    "2026-01-02T00:00:00" [sampleWebhook, disabledWebhook] "Daily" "Hello"
    "d-123" (fun _ => HttpOutcome.status 200) (by decide)).2]
  rfl

/-- C7: `create_webhook` with an id already present fails with the
already-exists error and leaves both the in-memory registry and the
persisted store unchanged (hence the existing record unmutated); with a
fresh id it succeeds, registers the new record under its id without
touching any other key, and the store immediately equals the saved image of
the new registry. -/
theorem createWebhook_contract (st : ManagerState) (wid nm : String)
    (ty : WebhookType) (url : String)
    (headers : Option (List (String × String))) (tmpl : Option String)
    (now : String) :
    (st.webhooks.any (fun p => p.1 = wid) = true →
      create_webhook st wid nm ty url headers tmpl now
        = (st, Except.error ("Webhook " ++ wid ++ " already exists")))
    ∧ (st.webhooks.any (fun p => p.1 = wid) = false →
      ∃ w : Webhook,
        create_webhook st wid nm ty url headers tmpl now
          = ({ webhooks := st.webhooks ++ [(wid, w)],
               stored := saveWebhooks (st.webhooks ++ [(wid, w)]) },
             Except.ok w)
        ∧ w.id = wid ∧ w.type = ty ∧ w.enabled = true ∧ w.trigger_count = 0
        ∧ assocLookup (st.webhooks ++ [(wid, w)]) wid = some w
        ∧ (∀ k, ¬ k = wid →
            assocLookup (st.webhooks ++ [(wid, w)]) k
              = assocLookup st.webhooks k)) := by
  constructor
  · intro h
    unfold create_webhook
    rw [h]
    simp
  · intro h
    refine ⟨{
        id := wid, name := nm, type := ty, url := url, enabled := true,
        headers := headers.getD [], payload_template := tmpl,
        created_at := now, updated_at := now, last_triggered_at := none,
        trigger_count := 0 }, ?_, rfl, rfl, rfl, rfl, ?_, ?_⟩
    · unfold create_webhook
      rw [h]
      simp
    · rw [assocLookup_append, assocLookup_eq_none st.webhooks wid h]
      simp [assocLookup_cons, Option.orElse]
    · intro k hk
      have hk' : ¬ wid = k := fun he => hk he.symm
      rw [assocLookup_append]
      cases hc : assocLookup st.webhooks k <;>
        simp [hc, assocLookup_cons, assocLookup, hk', Option.orElse]

/-- C7 witness: on the concrete registry, creating duplicate id w1 fails and
leaves the state unchanged, and creating fresh id w9 succeeds. -/
theorem createWebhook_contract_witness :
    (create_webhook sampleState "w1" "Again" WebhookType.generic
        "https://example.test/hook2" none none "2026-01-02T00:00:00"
      = (sampleState, Except.error "Webhook w1 already exists"))
    ∧ ∃ w : Webhook,
        create_webhook sampleState "w9" "Fresh" WebhookType.slack
          "https://example.test/hook9" none none "2026-01-02T00:00:00"
          = ({ webhooks := sampleState.webhooks ++ [("w9", w)],
               stored := saveWebhooks (sampleState.webhooks ++ [("w9", w)]) },
             Except.ok w)
        ∧ w.id = "w9" ∧ w.type = WebhookType.slack ∧ w.enabled = true
        ∧ w.trigger_count = 0
        ∧ assocLookup (sampleState.webhooks ++ [("w9", w)]) "w9" = some w
        ∧ (∀ k, ¬ k = "w9" →
            assocLookup (sampleState.webhooks ++ [("w9", w)]) k
              = assocLookup sampleState.webhooks k) := by
  constructor
  · exact (createWebhook_contract sampleState "w1" "Again" WebhookType.generic
      "https://example.test/hook2" none none "2026-01-02T00:00:00").1
      (by decide)
  · exact (createWebhook_contract sampleState "w9" "Fresh" WebhookType.slack
      "https://example.test/hook9" none none "2026-01-02T00:00:00").2
      (by decide)

theorem applyOp_preserves_type (st : ManagerState) (op : RegOp) (id : String) :
    (assocLookup (applyOp st op).webhooks id).map Webhook.type
      = (assocLookup st.webhooks id).map Webhook.type := by
  cases op with
  | update wid nm url en hd tmpl now =>
    unfold applyOp update_webhook
    cases hw : assocLookup st.webhooks wid with
    | none => simp [hw]
    | some w =>
      by_cases hid : id = wid
      · subst hid
        simp [hw, assocLookup_assocSet]
      · simp [hw, assocLookup_assocSet, hid]
  | toggle wid now =>
    unfold applyOp toggle_webhook
    cases hw : assocLookup st.webhooks wid with
    | none => simp [hw]
    | some w =>
      by_cases hid : id = wid
      · subst hid
        simp [hw, assocLookup_assocSet]
      · simp [hw, assocLookup_assocSet, hid]
  | sendSuccess wid now =>
    unfold applyOp recordSendSuccess
    cases hw : assocLookup st.webhooks wid with
    | none => simp [hw]
    | some w =>
      by_cases hid : id = wid
      · subst hid
        simp [hw, assocLookup_assocSet]
      · simp [hw, assocLookup_assocSet, hid]

/-- C8: a record's `type` is never changed after creation: `update_webhook`
has no type parameter, `toggle_webhook` flips only `enabled`, and the
dispatcher's success bookkeeping touches only the trigger statistics, so
after any sequence of these registry operations every id maps to a record
of the same type as before the sequence. -/
theorem registry_type_immutable (ops : List RegOp) (st : ManagerState)
    (id : String) :
    (assocLookup (applyOps st ops).webhooks id).map Webhook.type
      = (assocLookup st.webhooks id).map Webhook.type := by
  induction ops generalizing st with
  | nil => rfl
  | cons op ops ih =>
    unfold applyOps at ih ⊢
    rw [List.foldl_cons]
    exact (ih (applyOp st op)).trans (applyOp_preserves_type st op id)
